import Mathlib

/-!
Shallow embedding of the Bitswhispers client subsystem: the channel router
(firebase client module), the rate-limiter utility module, the rate-limit
gate inside the MessageInput component, and the feed controller inside the
ChatArea component (history load, live subscription, load-more pagination,
reporting).  Times are modelled as Int epoch milliseconds; Firestore
document stores are modelled as lists of message records; localStorage is
modelled as an association list with a capacity bound for quota failures.
-/

namespace BW

/-! ## Channel router (firebase client module) -/

/-- The four Firestore instances created by the firebase client module.
Four initializeFirestore calls on four distinct apps yield four distinct
handles, modelled as four constructors: db is the main project
(productioncloak-c935a, confessions only), locationDb the location-channels
project, supportDb the bits-cloak project, generalDb the general-channel
project. -/
inductive Firestore where
  | db
  | locationDb
  | supportDb
  | generalDb
  deriving DecidableEq, Repr

/-- The four Auth instances, one per app, mirroring the Firestore handles. -/
inductive Auth where
  | auth
  | locationAuth
  | supportAuth
  | generalAuth
  deriving DecidableEq, Repr

/-- The part of a Firebase config relevant here: its projectId. -/
structure FirebaseConfig where
  projectId : String
  deriving DecidableEq, Repr

/-- Main config (confessions channel). -/
def firebaseConfig : FirebaseConfig := ⟨"productioncloak-c935a"⟩

/-- Location-channels config. -/
def locationFirebaseConfig : FirebaseConfig := ⟨"location-channels"⟩

/-- Support-channel config. -/
def supportFirebaseConfig : FirebaseConfig := ⟨"bits-cloak"⟩

/-- General-channel config. -/
def generalFirebaseConfig : FirebaseConfig := ⟨"general-channel"⟩

/-- The nonLocationChannels list used by the router functions. -/
def nonLocationChannels : List String := ["general", "confessions", "support"]

/-- getFirestoreForChannel from the firebase client module: general and
support first, then every id outside nonLocationChannels goes to the
location project, and only confessions reaches the final return of the
main db. -/
def getFirestoreForChannel (channelId : String) : Firestore :=
  if channelId = "general" then Firestore.generalDb
  else if channelId = "support" then Firestore.supportDb
  else if !(nonLocationChannels.contains channelId) then Firestore.locationDb
  else Firestore.db

/-- getAuthForChannel, with the same branch structure as
getFirestoreForChannel. -/
def getAuthForChannel (channelId : String) : Auth :=
  if channelId = "general" then Auth.generalAuth
  else if channelId = "support" then Auth.supportAuth
  else if !(nonLocationChannels.contains channelId) then Auth.locationAuth
  else Auth.auth

/-- isLocationChannel helper from the firebase client module. -/
def isLocationChannel (channelId : String) : Bool :=
  !(nonLocationChannels.contains channelId)

/-- verifySupportChannelIsolation from the firebase client module: checks
that support resolves to the support db, confessions to the main db, that
the two project ids are the expected constants, and that the two resolved
instances differ. -/
def verifySupportChannelIsolation : Bool :=
  let supportDbInstance := getFirestoreForChannel "support"
  let confessionsDbInstance := getFirestoreForChannel "confessions"
  let isSupportUsingCorrectDb := supportDbInstance == Firestore.supportDb
  let isConfessionsUsingMainDb := confessionsDbInstance == Firestore.db
  let supportProjectId := supportFirebaseConfig.projectId
  let mainProjectId := firebaseConfig.projectId
  isSupportUsingCorrectDb && isConfessionsUsingMainDb &&
    (supportProjectId == "bits-cloak") &&
    (mainProjectId == "productioncloak-c935a") &&
    (supportDbInstance != confessionsDbInstance)

/-! ## localStorage model

Shared by the rate-limiter utility module and the MessageInput component.
A stored value is either a rate-limiter record (count, timestamp), a
MessageInput rate-limit record (lastSubmitTime, submissionCount,
cooldownUntil), or corrupt data on which JSON.parse throws.  The capacity
field models the storage quota: adding a new key needs a free slot,
overwriting an existing key always succeeds. -/

/-- One value held in localStorage. -/
inductive StorageVal where
  | entry (count : Nat) (timestamp : Int)
  | rlState (lastSubmitTime : Int) (submissionCount : Nat) (cooldownUntil : Int)
  | corrupt
  deriving DecidableEq, Repr

/-- The localStorage key-value store with a quota bound. -/
structure Storage where
  entries : List (String × StorageVal)
  capacity : Nat
  deriving DecidableEq, Repr

/-- Key lookup in an entry list (first binding wins; bindings are unique
because writes replace in place). -/
def lookupEntries : List (String × StorageVal) → String → Option StorageVal
  | [], _ => none
  | p :: t, k => if p.1 = k then some p.2 else lookupEntries t k

/-- Whether a key is present in an entry list. -/
def hasKey : List (String × StorageVal) → String → Bool
  | [], _ => false
  | p :: t, k => decide (p.1 = k) || hasKey t k

/-- Replace the binding of a key, or append a new binding. -/
def setEntries : List (String × StorageVal) → String → StorageVal → List (String × StorageVal)
  | [], k, v => [(k, v)]
  | p :: t, k, v => if p.1 = k then (k, v) :: t else p :: setEntries t k v

/-- localStorage.getItem. -/
def Storage.getItem (s : Storage) (k : String) : Option StorageVal :=
  lookupEntries s.entries k

/-- Whether localStorage.setItem succeeds: overwriting an existing key
always fits; a new key needs a free slot under the quota. -/
def Storage.writeOk (s : Storage) (k : String) : Bool :=
  hasKey s.entries k || decide (s.entries.length < s.capacity)

/-- localStorage.setItem, assuming it succeeds. -/
def Storage.insertItem (s : Storage) (k : String) (v : StorageVal) : Storage :=
  ⟨setEntries s.entries k v, s.capacity⟩

/-! ## Rate-limiter utility module -/

/-- The record the rate-limiter utility stores per key. -/
structure StoredRateData where
  count : Nat
  timestamp : Int
  deriving DecidableEq, Repr

/-- The result record returned by checkRateLimit.  The human-readable
message string (computed from resetTime and now) is omitted. -/
structure RateLimitResult where
  allowed : Bool
  remaining : Int
  resetTime : Int
  error : Option String
  deriving DecidableEq, Repr

/-- checkRateLimit options.  burstLimit and burstWindowMs are optional in
the source; JS truthiness (undefined and 0 are falsy) is modelled below
via Option.getD 0. -/
structure RateLimitOptions where
  maxRequests : Nat
  windowMs : Int
  burstLimit : Option Nat
  burstWindowMs : Option Int
  deriving DecidableEq, Repr

/-- DEFAULT_OPTIONS of the rate-limiter utility: 1 request per 30000 ms
window, burst of 3 inside a 120000 ms burst window. -/
def DEFAULT_OPTIONS : RateLimitOptions := ⟨1, 30000, some 3, some 120000⟩

/-- getStorageKey of the rate-limiter utility: the storage key prefix
followed by sessionId, a colon and the channel. -/
def getStorageKey (sessionId channel : String) : String :=
  "rate_limit_" ++ sessionId ++ ":" ++ channel

/-- getStoredData: a missing key or corrupt JSON yields none (the source
catches the parse error); a MessageInput-shaped record parses but its
count and timestamp fields are absent, so the defaults in
data.count plus 0 and data.timestamp plus 0 apply. -/
def getStoredData (s : Storage) (key : String) : Option StoredRateData :=
  match s.getItem key with
  | none => none
  | some StorageVal.corrupt => none
  | some (StorageVal.entry c t) => some ⟨c, t⟩
  | some (StorageVal.rlState _ _ _) => some ⟨0, 0⟩

/-- Whether pre begins s, at the character level (String.startsWith). -/
def strStartsWith (pre s : String) : Bool :=
  List.isPrefixOf pre.data s.data

/-- The eviction predicate of setStoredData on quota failure: a key with
the rate-limiter prefix whose record is corrupt, or whose timestamp is
truthy and older than the 5 minute retention horizon. -/
def isStaleRateKey (now : Int) (p : String × StorageVal) : Bool :=
  strStartsWith "rate_limit_" p.1 &&
    (match p.2 with
     | StorageVal.entry _ t => (t != 0) && (now - t > 5 * 60 * 1000)
     | StorageVal.rlState _ _ _ => false
     | StorageVal.corrupt => true)

/-- The cleanup loop run by setStoredData when the first write fails. -/
def evictStale (s : Storage) (now : Int) : Storage :=
  ⟨s.entries.filter (fun p => !(isStaleRateKey now p)), s.capacity⟩

/-- setStoredData: try the write; on quota failure evict stale
rate-limiter entries and retry once; if the retry still fails, proceed
without persisting the record. -/
def setStoredData (s : Storage) (key : String) (data : StoredRateData) (now : Int) : Storage :=
  if s.writeOk key then
    s.insertItem key (StorageVal.entry data.count data.timestamp)
  else
    let s2 := evictStale s now
    if s2.writeOk key then
      s2.insertItem key (StorageVal.entry data.count data.timestamp)
    else
      s2

/-- Result and post-storage of one checkRateLimit call. -/
structure CheckOutcome where
  result : RateLimitResult
  storage : Storage
  deriving DecidableEq, Repr

/-- checkRateLimit of the rate-limiter utility, as a pure function of the
storage and the clock.  Branches follow the source: absent record starts a
fresh window; a record older than windowMs resets the window; otherwise
the burst branch (when burstLimit and burstWindowMs are truthy) allows
while count is below burstLimit, keeping the original timestamp, and
denies once the burst limit is reached; the standard branch does the same
against maxRequests. -/
def checkRateLimit (s : Storage) (sessionId channel : String) (now : Int)
    (options : RateLimitOptions) : CheckOutcome :=
  let storageKey := getStorageKey sessionId channel
  match getStoredData s storageKey with
  | none =>
      ⟨⟨true, (options.maxRequests : Int) - 1, now + options.windowMs, none⟩,
        setStoredData s storageKey ⟨1, now⟩ now⟩
  | some entry =>
      let timeSinceLastRequest := now - entry.timestamp
      if timeSinceLastRequest > options.windowMs then
        ⟨⟨true, (options.maxRequests : Int) - 1, now + options.windowMs, none⟩,
          setStoredData s storageKey ⟨1, now⟩ now⟩
      else if (options.burstLimit.getD 0 != 0) && (options.burstWindowMs.getD 0 != 0) then
        let bl := options.burstLimit.getD 0
        let bw := options.burstWindowMs.getD 0
        if entry.count < bl then
          ⟨⟨true, (bl : Int) - ((entry.count : Int) + 1), entry.timestamp + bw, none⟩,
            setStoredData s storageKey ⟨entry.count + 1, entry.timestamp⟩ now⟩
        else
          ⟨⟨false, 0, entry.timestamp + bw, some "rate_limited"⟩, s⟩
      else
        if entry.count < options.maxRequests then
          ⟨⟨true, (options.maxRequests : Int) - ((entry.count : Int) + 1),
              entry.timestamp + options.windowMs, none⟩,
            setStoredData s storageKey ⟨entry.count + 1, entry.timestamp⟩ now⟩
        else
          ⟨⟨false, 0, entry.timestamp + options.windowMs, some "rate_limited"⟩, s⟩

/-! ## MessageInput component rate-limit gate

The component keeps its own rate-limit logic, separate from the
rate-limiter utility: constants MAX_SUBMISSIONS, COOLDOWN_PERIOD and
BURST_WINDOW, a RateLimitState record, and a single localStorage key
RATE_LIMIT_STORAGE_KEY shared regardless of the channel prop the component
receives. -/

/-- MAX_SUBMISSIONS of the MessageInput component. -/
def MAX_SUBMISSIONS : Nat := 3

/-- COOLDOWN_PERIOD of the MessageInput component, ms. -/
def COOLDOWN_PERIOD : Int := 30000

/-- BURST_WINDOW of the MessageInput component, ms. -/
def BURST_WINDOW : Int := 120000

/-- RATE_LIMIT_STORAGE_KEY of the MessageInput component: one fixed key,
not parameterised by session or channel. -/
def RATE_LIMIT_STORAGE_KEY : String := "message_rate_limit"

/-- The MessageInput rate-limit record. -/
structure RateLimitState where
  lastSubmitTime : Int
  submissionCount : Nat
  cooldownUntil : Int
  deriving DecidableEq, Repr

/-- getRateLimitFromStorage: absent or corrupt storage yields the zero
state; an expired cooldown (cooldownUntil truthy and now at or past it)
yields the zero state; an expired burst window (lastSubmitTime truthy and
more than BURST_WINDOW ago) zeroes the count and time but keeps the
cooldown; otherwise the stored record is returned.  A rate-limiter-shaped
record under this key would parse with all three fields absent, which the
source then returns as data; its fields read back as undefined, modelled
as the zero state. -/
def getRateLimitFromStorage (s : Storage) (now : Int) : RateLimitState :=
  match s.getItem RATE_LIMIT_STORAGE_KEY with
  | none => ⟨0, 0, 0⟩
  | some StorageVal.corrupt => ⟨0, 0, 0⟩
  | some (StorageVal.entry _ _) => ⟨0, 0, 0⟩
  | some (StorageVal.rlState last cnt cool) =>
      if (cool != 0) && (now ≥ cool) then ⟨0, 0, 0⟩
      else if (last != 0) && (now - last > BURST_WINDOW) then ⟨0, 0, cool⟩
      else ⟨last, cnt, cool⟩

/-- saveRateLimitToStorage (the component ignores write failures beyond a
dev warning; the state value is always at most one key, so quota pressure
from this key alone is not modelled). -/
def saveRateLimitToStorage (s : Storage) (st : RateLimitState) : Storage :=
  s.insertItem RATE_LIMIT_STORAGE_KEY
    (StorageVal.rlState st.lastSubmitTime st.submissionCount st.cooldownUntil)

/-- Outcome of one handleSubmit call in the MessageInput component. -/
inductive SubmitOutcome where
  | rateLimited
  | rejected
  | sent
  deriving DecidableEq, Repr

/-- The rate-limit path of handleSubmit: deny while now is before
cooldownUntil; reject invalid text; otherwise count the submission (reset
to 1 when the last submission is more than BURST_WINDOW old), set
lastSubmitTime to now, and when the count exceeds MAX_SUBMISSIONS impose
cooldownUntil = now + COOLDOWN_PERIOD and zero the count — the message is
still sent in that case. -/
def handleSubmit (rl : RateLimitState) (valid : Bool) (now : Int) :
    SubmitOutcome × RateLimitState :=
  if now < rl.cooldownUntil then (SubmitOutcome.rateLimited, rl)
  else if !valid then (SubmitOutcome.rejected, rl)
  else
    let count1 : Nat := if now - rl.lastSubmitTime > BURST_WINDOW then 1 else rl.submissionCount + 1
    let newRateLimit : RateLimitState :=
      if count1 > MAX_SUBMISSIONS then ⟨now, 0, now + COOLDOWN_PERIOD⟩
      else ⟨now, count1, rl.cooldownUntil⟩
    (SubmitOutcome.sent, newRateLimit)

/-- One submission attempt at the storage level: read the shared record,
run the gate, and persist the updated record only when the message was
sent.  The channel argument mirrors the channel prop the component
receives; the rate-limit storage does not depend on it. -/
def submitViaStorage (s : Storage) (channel : String) (valid : Bool) (now : Int) :
    SubmitOutcome × Storage :=
  let rl := getRateLimitFromStorage s now
  let out := handleSubmit rl valid now
  match out.1 with
  | SubmitOutcome.sent => (out.1, saveRateLimitToStorage s out.2)
  | _ => (out.1, s)

/-- A sequence of valid submission attempts in channel general, returning
the outcome list and the final storage. -/
def runSubmissions : Storage → List Int → List SubmitOutcome × Storage
  | s, [] => ([], s)
  | s, t :: ts =>
      let step := submitViaStorage s "general" true t
      let rest := runSubmissions step.2 ts
      (step.1 :: rest.1, rest.2)

/-- A sequence of checkRateLimit calls for session anon123 in channel
general with the default options, returning the allowed flags and the
final storage. -/
def runChecks : Storage → List Int → List Bool × Storage
  | s, [] => ([], s)
  | s, t :: ts =>
      let step := checkRateLimit s "anon123" "general" t DEFAULT_OPTIONS
      let rest := runChecks step.storage ts
      (step.result.allowed :: rest.1, rest.2)

/-! ## Message records and Firestore query model -/

/-- A message document as mapped by the ChatArea component.  created_at is
epoch milliseconds (the source converts Firestore timestamps via toMillis
and ISO strings at millisecond precision). -/
structure Msg where
  id : String
  channel : String
  username : String
  content : String
  created_at : Int
  reported : Bool
  report_count : Nat
  replyToMessageId : Option String
  replyToContent : Option String
  replyToUsername : Option String
  deriving DecidableEq, Repr

/-- Newest-first comparison used by orderBy created_at descending. -/
def byNewest (a b : Msg) : Prop := b.created_at ≤ a.created_at

/-- Oldest-first comparison used by orderBy created_at ascending. -/
def byOldest (a b : Msg) : Prop := a.created_at ≤ b.created_at

instance : DecidableRel byNewest :=
  fun a b => inferInstanceAs (Decidable (b.created_at ≤ a.created_at))

instance : DecidableRel byOldest :=
  fun a b => inferInstanceAs (Decidable (a.created_at ≤ b.created_at))

instance : IsTotal Msg byNewest :=
  ⟨fun a b => (Int.le_total a.created_at b.created_at).symm⟩

instance : IsTotal Msg byOldest :=
  ⟨fun a b => Int.le_total a.created_at b.created_at⟩

instance : IsTrans Msg byNewest :=
  ⟨fun _ _ _ h1 h2 => le_trans h2 h1⟩

instance : IsTrans Msg byOldest :=
  ⟨fun _ _ _ h1 h2 => le_trans h1 h2⟩

/-- Sort newest first, as done by orderBy created_at descending.
Documents with equal timestamps are ordered by document position; the
model assumes per-channel distinct server timestamps, as the spec grants
(creation timestamps are monotonic per channel). -/
def sortNewestFirst (l : List Msg) : List Msg := l.insertionSort byNewest

/-- Sort oldest first, as done by orderBy created_at ascending. -/
def sortOldestFirst (l : List Msg) : List Msg := l.insertionSort byOldest

/-- The initial history query: the channel's messages, newest first,
limit 25. -/
def historyQuery (store : List Msg) (channel : String) : List Msg :=
  (sortNewestFirst (store.filter (fun m => m.channel == channel))).take 25

/-- The load-more page query: the channel's messages strictly older than
the cursor document, newest first, limit 25 (startAfter on the
newest-first order). -/
def loadMoreQuery (store : List Msg) (channel : String) (cursor : Msg) : List Msg :=
  (sortNewestFirst (store.filter
    (fun m => (m.channel == channel) && (m.created_at < cursor.created_at)))).take 25

/-- The live subscription query: the channel's messages strictly after the
boundary, oldest first (startAfter on the ascending order). -/
def liveQuery (store : List Msg) (channel : String) (boundary : Int) : List Msg :=
  sortOldestFirst (store.filter
    (fun m => (m.channel == channel) && (boundary < m.created_at)))

/-! ## Feed controller (ChatArea component) -/

/-- The live-since boundary computed by subscribeToMessages after the
history load: when the server read succeeded its snapshot is used, else
the cache snapshot; the newest document's created_at (head of the
newest-first snapshot) is the boundary, a missing or empty snapshot gives
now minus a 1000 ms safety margin; when the server read failed and the
cache snapshot is missing or empty the function returns early and no
boundary is fixed (none). -/
def computeLiveBoundary (cacheDocs : List Msg) (serverResult : Option (List Msg))
    (now : Int) : Option Int :=
  match serverResult with
  | some serverDocs =>
      match serverDocs with
      | [] => some (now - 1000)
      | d :: _ => some d.created_at
  | none =>
      match cacheDocs with
      | [] => none
      | d :: _ => some d.created_at

/-- The live-listener added handler: append incoming docs, dropping any id
already present. -/
def dedupAppend (prev newMsgs : List Msg) : List Msg :=
  prev ++ newMsgs.filter (fun m => !(prev.any (fun p => p.id == m.id)))

/-- The load-more merge: prepend the (already reversed) page, dropping any
id already present. -/
def dedupPrepend (items prev : List Msg) : List Msg :=
  items.filter (fun m => !(prev.any (fun p => p.id == m.id))) ++ prev

/-- The pagination-relevant component state: message list, oldest-loaded
cursor, more-available flag. -/
structure FeedState where
  messages : List Msg
  oldestDoc : Option Msg
  hasMore : Bool
  deriving DecidableEq, Repr

/-- handleLoadMore of the ChatArea component: with no cursor it returns
before issuing any fetch (the Bool records whether a fetch was issued);
otherwise it queries the cache tier, falls back to the server when the
cache page is empty, reverses and prepends the page deduplicated by id,
advances the cursor to the last (oldest) page document when the page is
nonempty and sets hasMore to whether the page was full, and on an empty
page leaves the cursor and sets hasMore to false. -/
def handleLoadMore (cacheStore serverStore : List Msg) (channel : String)
    (st : FeedState) : FeedState × Bool :=
  match st.oldestDoc with
  | none => (st, false)
  | some cursor =>
      let cachePage := loadMoreQuery cacheStore channel cursor
      let snap := if cachePage.isEmpty then loadMoreQuery serverStore channel cursor
                  else cachePage
      let items := snap.reverse
      let newMessages := dedupPrepend items st.messages
      match snap.getLast? with
      | some lastDoc => (⟨newMessages, some lastDoc, snap.length == 25⟩, true)
      | none => (⟨newMessages, st.oldestDoc, false⟩, true)

/-! ## Channel switching (ChatArea effect and subscribeToMessages)

An interleaving model of the async subscribeToMessages flow.  The
component state holds the current channel, the feed, and the installed
live subscription (the global unsubscribe handle), recorded as the channel
and boundary its query was built from.  Events: a channel switch (the
effect cleanup calls the global unsubscribe, the state resets, and a new
subscribeToMessages run is spawned); the resolution of a run's awaited
server history read, whose synchronous continuation replaces the feed,
fixes the boundary, unsubscribes whatever handle is current and installs
its own listener — the source never compares the run's channel with the
current channel at this point; and a delivery of added documents through
the installed subscription, filtered by that subscription's own query. -/

/-- Component state for the channel-switch model. -/
structure ViewState where
  currentChannel : String
  feed : List Msg
  installedSub : Option (String × Int)
  deriving DecidableEq, Repr

/-- Scheduler events for the channel-switch model. -/
inductive FeedEvent where
  | switchChannel (ch : String)
  | historyResolves (ch : String) (history : List Msg) (now : Int)
  | liveDelivery (docs : List Msg)
  deriving DecidableEq, Repr

/-- One scheduler step.  historyResolves applies the stale-or-fresh run's
continuation unconditionally: there is no channel-id check at resolution
time in the source. -/
def stepView (st : ViewState) (e : FeedEvent) : ViewState :=
  match e with
  | FeedEvent.switchChannel ch => ⟨ch, [], none⟩
  | FeedEvent.historyResolves ch history now =>
      let boundary := match history with
        | [] => now - 1000
        | d :: _ => d.created_at
      ⟨st.currentChannel, history.reverse, some (ch, boundary)⟩
  | FeedEvent.liveDelivery docs =>
      match st.installedSub with
      | none => st
      | some sub => ⟨st.currentChannel, dedupAppend st.feed (liveQuery docs sub.1 sub.2),
          st.installedSub⟩

/-- Run a whole event schedule from an initial state. -/
def runView (st : ViewState) (es : List FeedEvent) : ViewState :=
  es.foldl stepView st

/-! ## Moderation: reportMessage -/

/-- reportMessage of the ChatArea component: one updateDoc applying the
server-side atomic increment of report_count, then one updateDoc setting
reported to true — unconditionally, although the adjacent source comment
says to set it when the count is at least 2. -/
def reportMessage (m : Msg) : Msg :=
  let afterIncrement := { m with report_count := m.report_count + 1 }
  { afterIncrement with reported := true }

/-! ## Concrete inputs used by counterexamples and failing-input runs -/

/-- A plain message constructor for concrete scenarios. -/
def mkMsg (i ch : String) (t : Int) : Msg :=
  ⟨i, ch, "anon", "hello", t, false, 0, none, none, none⟩

/-- A confessions message already in the confessions history. -/
def confessionsOld : Msg := mkMsg "c0" "confessions" 100

/-- A confessions message created after the switch to support. -/
def confessionsNew : Msg := mkMsg "c1" "confessions" 200

/-- The schedule in which the user opens confessions, immediately switches
to support, the support run resolves and installs its listener, then the
stale confessions run resolves, and finally a new confessions document
arrives. -/
def staleFetchSchedule : List FeedEvent :=
  [FeedEvent.switchChannel "confessions",
   FeedEvent.switchChannel "support",
   FeedEvent.historyResolves "support" [] 1000,
   FeedEvent.historyResolves "confessions" [confessionsOld] 1000,
   FeedEvent.liveDelivery [confessionsNew]]

/-- A fresh message used for the reporting scenario. -/
def freshMsg : Msg := mkMsg "m1" "general" 500

/-! ## Theorems -/

/-- C1: the channel router resolves general, support and confessions to
their dedicated partitions and every other identifier to the location
partition, likewise for the auth handles; the three dedicated partitions
are pairwise distinct; and verifySupportChannelIsolation returns true. -/
theorem channel_router_resolution :
    (getFirestoreForChannel "general" = Firestore.generalDb ∧
     getFirestoreForChannel "support" = Firestore.supportDb ∧
     getFirestoreForChannel "confessions" = Firestore.db) ∧
    (getAuthForChannel "general" = Auth.generalAuth ∧
     getAuthForChannel "support" = Auth.supportAuth ∧
     getAuthForChannel "confessions" = Auth.auth) ∧
    (Firestore.generalDb ≠ Firestore.supportDb ∧
     Firestore.supportDb ≠ Firestore.db ∧
     Firestore.generalDb ≠ Firestore.db) ∧
    verifySupportChannelIsolation = true ∧
    ∀ c : String, c ≠ "general" → c ≠ "support" → c ≠ "confessions" →
      getFirestoreForChannel c = Firestore.locationDb ∧
      getAuthForChannel c = Auth.locationAuth := by
  refine ⟨by decide, by decide, by decide, by decide, ?_⟩
  intro c h1 h2 h3
  constructor <;>
    simp [getFirestoreForChannel, getAuthForChannel, nonLocationChannels, h1, h2, h3]

/-- Witness for C1 at the location channel lt1. -/
theorem channel_router_resolution_witness :
    getFirestoreForChannel "lt1" = Firestore.locationDb ∧
    getAuthForChannel "lt1" = Auth.locationAuth :=
  channel_router_resolution.2.2.2.2 "lt1" (by decide) (by decide) (by decide)

/-- C10: with no pagination cursor, handleLoadMore issues no fetch and
leaves the message list, the cursor and the more-available flag
unchanged. -/
theorem load_more_without_cursor_noop (cacheStore serverStore : List Msg)
    (channel : String) (st : FeedState) (h : st.oldestDoc = none) :
    handleLoadMore cacheStore serverStore channel st = (st, false) := by
  unfold handleLoadMore
  rw [h]

/-- Witness for C10 on a concrete cursorless state. -/
theorem load_more_without_cursor_noop_witness :
    handleLoadMore [] [] "general" ⟨[], none, true⟩ = (⟨[], none, true⟩, false) :=
  load_more_without_cursor_noop [] [] "general" ⟨[], none, true⟩ rfl

/-- C9 failing input: reporting a message whose report_count is 0 sets its
reported flag although its count, 1, is below the threshold of 2 named by
the source comment; only reported and report_count ever change. -/
theorem report_sets_flag_below_threshold :
    (reportMessage freshMsg).report_count = 1 ∧
    (reportMessage freshMsg).reported = true ∧
    freshMsg.report_count = 0 ∧ freshMsg.reported = false ∧ (1 : Nat) < 2 ∧
    ∀ m : Msg, (reportMessage m).report_count = m.report_count + 1 ∧
      (reportMessage m).reported = true ∧
      (reportMessage m).id = m.id ∧ (reportMessage m).channel = m.channel ∧
      (reportMessage m).username = m.username ∧
      (reportMessage m).content = m.content ∧
      (reportMessage m).created_at = m.created_at ∧
      (reportMessage m).replyToMessageId = m.replyToMessageId ∧
      (reportMessage m).replyToContent = m.replyToContent ∧
      (reportMessage m).replyToUsername = m.replyToUsername := by
  refine ⟨rfl, rfl, rfl, rfl, by decide, ?_⟩
  intro m
  exact ⟨rfl, rfl, rfl, rfl, rfl, rfl, rfl, rfl, rfl, rfl⟩

/-- C7 failing input: opening confessions, switching to support, letting
the support run install its listener, then letting the stale confessions
history read resolve: the stale continuation replaces the feed and
re-installs the confessions subscription without any channel-id check, so
a later confessions document is delivered into the feed while the current
channel is support. -/
theorem stale_fetch_pollutes_switched_feed :
    (runView ⟨"general", [], none⟩ staleFetchSchedule).currentChannel = "support" ∧
    confessionsNew ∈ (runView ⟨"general", [], none⟩ staleFetchSchedule).feed ∧
    confessionsNew.channel = "confessions" ∧
    (runView ⟨"general", [], none⟩ staleFetchSchedule).installedSub =
      some ("confessions", 100) := by
  decide

/-- C2 counterexample: from a fresh state, four valid submissions inside
one burst window are all sent (the fourth is not denied, it only imposes
the cooldown); the stored timestamp changes from 1000 to 2000 on the
second allowed submission (it is the last-submit time, not the window
start); and checkRateLimit allows a fourth request 40 s after the first,
inside the 120 s burst window, because its reset check uses the 30 s
windowMs. -/
theorem burst_claim_counterexample :
    (runSubmissions ⟨[], 10⟩ [1000, 2000, 3000, 4000]).1 =
      [SubmitOutcome.sent, SubmitOutcome.sent, SubmitOutcome.sent, SubmitOutcome.sent] ∧
    (runSubmissions ⟨[], 10⟩ [1000]).2.getItem RATE_LIMIT_STORAGE_KEY =
      some (StorageVal.rlState 1000 1 0) ∧
    (runSubmissions ⟨[], 10⟩ [1000, 2000]).2.getItem RATE_LIMIT_STORAGE_KEY =
      some (StorageVal.rlState 2000 2 0) ∧
    (runChecks ⟨[], 10⟩ [0, 10000, 20000, 40000]).1 = [true, true, true, true] := by
  decide

/-- C3 counterexample: from the same fresh storage, a first submission in
support is sent; after four submissions in general the identical support
submission is rate limited — submissions in one channel alter the gating
of another, because the component keeps one shared record. -/
theorem per_channel_keying_counterexample :
    (submitViaStorage ⟨[], 10⟩ "support" true 5000).1 = SubmitOutcome.sent ∧
    (submitViaStorage (runSubmissions ⟨[], 10⟩ [1000, 2000, 3000, 4000]).2
        "support" true 5000).1 = SubmitOutcome.rateLimited := by
  decide

/-! ### Storage helper lemmas -/

theorem lookup_set_self (l : List (String × StorageVal)) (k : String) (v : StorageVal) :
    lookupEntries (setEntries l k v) k = some v := by
  induction l with
  | nil => simp [setEntries, lookupEntries]
  | cons p t ih =>
      by_cases h : p.1 = k
      · simp [setEntries, lookupEntries, h]
      · simp [setEntries, lookupEntries, h, ih]

theorem lookup_set_other (l : List (String × StorageVal)) (k k2 : String) (v : StorageVal)
    (h : k2 ≠ k) :
    lookupEntries (setEntries l k v) k2 = lookupEntries l k2 := by
  have hk : ¬ k = k2 := fun e => h (Eq.symm e)
  induction l with
  | nil => simp [setEntries, lookupEntries, hk]
  | cons p t ih =>
      by_cases hp : p.1 = k
      · have hp2 : ¬ p.1 = k2 := by rw [hp]; exact hk
        simp [setEntries, lookupEntries, hp, hp2, hk]
      · simp [setEntries, lookupEntries, hp, ih]

theorem getItem_insert_self (s : Storage) (k : String) (v : StorageVal) :
    (s.insertItem k v).getItem k = some v :=
  lookup_set_self s.entries k v

theorem getItem_insert_other (s : Storage) (k k2 : String) (v : StorageVal) (h : k2 ≠ k) :
    (s.insertItem k v).getItem k2 = s.getItem k2 :=
  lookup_set_other s.entries k k2 v h

theorem hasKey_of_lookup (l : List (String × StorageVal)) (k : String) (v : StorageVal)
    (h : lookupEntries l k = some v) : hasKey l k = true := by
  induction l with
  | nil => simp [lookupEntries] at h
  | cons p t ih =>
      by_cases hp : p.1 = k
      · simp [hasKey, hp]
      · simp [lookupEntries, hp] at h
        simp [hasKey, hp, ih h]

theorem writeOk_of_getItem (s : Storage) (k : String) (v : StorageVal)
    (h : s.getItem k = some v) : s.writeOk k = true := by
  unfold Storage.writeOk
  rw [hasKey_of_lookup s.entries k v h]
  rfl

theorem writeOk_of_getStoredData (s : Storage) (k : String) (e : StoredRateData)
    (h : getStoredData s k = some e) : s.writeOk k = true := by
  unfold getStoredData at h
  cases hv : s.getItem k with
  | none => rw [hv] at h; exact absurd h (by simp)
  | some v => exact writeOk_of_getItem s k v hv

theorem getItem_setStoredData_self (s : Storage) (k : String) (d : StoredRateData)
    (now : Int) (hw : s.writeOk k = true) :
    (setStoredData s k d now).getItem k = some (StorageVal.entry d.count d.timestamp) := by
  simp only [setStoredData, hw, if_true]
  exact getItem_insert_self s k _

theorem getItem_setStoredData_other (s : Storage) (k k2 : String) (d : StoredRateData)
    (now : Int) (hw : s.writeOk k = true) (h : k2 ≠ k) :
    (setStoredData s k d now).getItem k2 = s.getItem k2 := by
  simp only [setStoredData, hw, if_true]
  exact getItem_insert_other s k k2 _ h

/-- C2 amended: what the two rate-limit implementations actually do.
MessageInput gate: every attempt during the cooldown is denied without
state change; outside the cooldown a valid attempt is always sent and the
stored timestamp advances to now; the attempt after MAX_SUBMISSIONS
within the burst window is still sent and imposes the 30 s cooldown with
a zeroed count; an expired cooldown reads back as the empty state.
checkRateLimit: within 30 s (windowMs) of the stored window start the
burst rule applies — allowed below the burst limit with the window start
unchanged, denied at the limit without a write — while more than 30 s
after the window start the record resets and the request is allowed even
inside the 120 s burst window. -/
theorem burst_cooldown_amended :
    (∀ (rl : RateLimitState) (now : Int), now < rl.cooldownUntil →
      handleSubmit rl true now = (SubmitOutcome.rateLimited, rl)) ∧
    (∀ (rl : RateLimitState) (now : Int), rl.cooldownUntil ≤ now →
      (handleSubmit rl true now).1 = SubmitOutcome.sent ∧
      (handleSubmit rl true now).2.lastSubmitTime = now) ∧
    (∀ (rl : RateLimitState) (now : Int), rl.cooldownUntil ≤ now →
      now - rl.lastSubmitTime ≤ BURST_WINDOW → rl.submissionCount = MAX_SUBMISSIONS →
      handleSubmit rl true now = (SubmitOutcome.sent, ⟨now, 0, now + COOLDOWN_PERIOD⟩)) ∧
    (∀ (s : Storage) (l cool : Int) (c : Nat) (now : Int),
      s.getItem RATE_LIMIT_STORAGE_KEY = some (StorageVal.rlState l c cool) →
      cool ≠ 0 → cool ≤ now → getRateLimitFromStorage s now = ⟨0, 0, 0⟩) ∧
    (∀ (s : Storage) (sid ch : String) (e : StoredRateData) (now : Int),
      getStoredData s (getStorageKey sid ch) = some e →
      now - e.timestamp ≤ 30000 → e.count < 3 →
      (checkRateLimit s sid ch now DEFAULT_OPTIONS).result.allowed = true ∧
      (checkRateLimit s sid ch now DEFAULT_OPTIONS).result.resetTime = e.timestamp + 120000 ∧
      getStoredData (checkRateLimit s sid ch now DEFAULT_OPTIONS).storage
        (getStorageKey sid ch) = some ⟨e.count + 1, e.timestamp⟩) ∧
    (∀ (s : Storage) (sid ch : String) (e : StoredRateData) (now : Int),
      getStoredData s (getStorageKey sid ch) = some e →
      now - e.timestamp ≤ 30000 → 3 ≤ e.count →
      checkRateLimit s sid ch now DEFAULT_OPTIONS =
        ⟨⟨false, 0, e.timestamp + 120000, some "rate_limited"⟩, s⟩) ∧
    (∀ (s : Storage) (sid ch : String) (e : StoredRateData) (now : Int),
      getStoredData s (getStorageKey sid ch) = some e →
      30000 < now - e.timestamp →
      (checkRateLimit s sid ch now DEFAULT_OPTIONS).result.allowed = true ∧
      getStoredData (checkRateLimit s sid ch now DEFAULT_OPTIONS).storage
        (getStorageKey sid ch) = some ⟨1, now⟩) := by
  refine ⟨?_, ?_, ?_, ?_, ?_, ?_, ?_⟩
  · intro rl now h
    simp [handleSubmit, h]
  · intro rl now h
    simp [handleSubmit, not_lt.2 h]
    split
    · rfl
    · split <;> rfl
  · intro rl now h1 h2 h3
    have hnb : ¬ (BURST_WINDOW < now - rl.lastSubmitTime) := not_lt.2 h2
    simp [handleSubmit, not_lt.2 h1, hnb, h3, MAX_SUBMISSIONS]
  · intro s l cool c now hget hcool hnow
    simp [getRateLimitFromStorage, hget, hcool, hnow]
  · intro s sid ch e now hget h30 hcnt
    have hw := writeOk_of_getStoredData s (getStorageKey sid ch) e hget
    have hns : ¬ (30000 < now - e.timestamp) := not_lt.2 h30
    have hstore : checkRateLimit s sid ch now DEFAULT_OPTIONS =
        ⟨⟨true, 3 - ((e.count : Int) + 1), e.timestamp + 120000, none⟩,
          setStoredData s (getStorageKey sid ch) ⟨e.count + 1, e.timestamp⟩ now⟩ := by
      simp [checkRateLimit, hget, DEFAULT_OPTIONS, hns, hcnt]
    rw [hstore]
    refine ⟨rfl, rfl, ?_⟩
    simp [getStoredData, getItem_setStoredData_self s (getStorageKey sid ch) _ now hw]
  · intro s sid ch e now hget h30 hcnt
    have hns : ¬ (30000 < now - e.timestamp) := not_lt.2 h30
    have hnc : ¬ (e.count < 3) := not_lt.2 hcnt
    simp [checkRateLimit, hget, DEFAULT_OPTIONS, hns, hnc]
  · intro s sid ch e now hget h30
    have hw := writeOk_of_getStoredData s (getStorageKey sid ch) e hget
    have hstore : checkRateLimit s sid ch now DEFAULT_OPTIONS =
        ⟨⟨true, 0, now + 30000, none⟩,
          setStoredData s (getStorageKey sid ch) ⟨1, now⟩ now⟩ := by
      simp [checkRateLimit, hget, DEFAULT_OPTIONS, h30]
    rw [hstore]
    refine ⟨rfl, ?_⟩
    simp [getStoredData, getItem_setStoredData_self s (getStorageKey sid ch) _ now hw]

/-- Witness for the amended C2 at concrete states: a denied attempt during
cooldown, the cooldown-imposing fourth submission, an expired cooldown
reading back empty, and a denied checkRateLimit call at the burst limit. -/
theorem burst_cooldown_amended_witness :
    handleSubmit ⟨0, 0, 34000⟩ true 5000 = (SubmitOutcome.rateLimited, ⟨0, 0, 34000⟩) ∧
    handleSubmit ⟨3000, 3, 0⟩ true 4000 = (SubmitOutcome.sent, ⟨4000, 0, 4000 + 30000⟩) ∧
    getRateLimitFromStorage ⟨[("message_rate_limit", StorageVal.rlState 4000 0 34000)], 10⟩
      40000 = ⟨0, 0, 0⟩ ∧
    checkRateLimit ⟨[("rate_limit_anon123:general", StorageVal.entry 3 0)], 10⟩
        "anon123" "general" 10000 DEFAULT_OPTIONS =
      ⟨⟨false, 0, 120000, some "rate_limited"⟩,
        ⟨[("rate_limit_anon123:general", StorageVal.entry 3 0)], 10⟩⟩ := by
  obtain ⟨h1, h2, h3, h4, h5, h6, h7⟩ := burst_cooldown_amended
  refine ⟨h1 ⟨0, 0, 34000⟩ 5000 (by decide), h3 ⟨3000, 3, 0⟩ 4000 (by decide) (by decide) rfl,
    h4 _ 4000 34000 0 40000 (by decide) (by decide) (by decide), ?_⟩
  have := h6 ⟨[("rate_limit_anon123:general", StorageVal.entry 3 0)], 10⟩
    "anon123" "general" ⟨3, 0⟩ 10000 (by decide) (by decide) (by decide)
  simpa using this

/-- C3 amended: the rate-limiter utility keys records by (sessionId,
channel) — distinct channels give distinct keys, and a checkRateLimit call
that can write in place leaves every other key untouched — while the
MessageInput gate ignores its channel entirely: one shared record gates
every channel. -/
theorem per_channel_keying_amended :
    (∀ (sid c1 c2 : String), c1 ≠ c2 → getStorageKey sid c1 ≠ getStorageKey sid c2) ∧
    (∀ (s : Storage) (sid ch k : String) (now : Int) (opts : RateLimitOptions),
      k ≠ getStorageKey sid ch → s.writeOk (getStorageKey sid ch) = true →
      (checkRateLimit s sid ch now opts).storage.getItem k = s.getItem k) ∧
    (∀ (s : Storage) (c1 c2 : String) (v : Bool) (now : Int),
      submitViaStorage s c1 v now = submitViaStorage s c2 v now) := by
  refine ⟨?_, ?_, ?_⟩
  · intro sid c1 c2 hne heq
    apply hne
    have hd := congrArg String.data heq
    simp only [getStorageKey, String.data_append, List.append_assoc] at hd
    have h1 := List.append_cancel_left hd
    have h2 := List.append_cancel_left h1
    have h3 := List.append_cancel_left h2
    exact String.ext h3
  · intro s sid ch k now opts hk hw
    have hother : ∀ d : StoredRateData,
        (setStoredData s (getStorageKey sid ch) d now).getItem k = s.getItem k :=
      fun d => getItem_setStoredData_other s (getStorageKey sid ch) k d now hw hk
    have hcases : (checkRateLimit s sid ch now opts).storage = s ∨
        ∃ d, (checkRateLimit s sid ch now opts).storage =
          setStoredData s (getStorageKey sid ch) d now := by
      simp only [checkRateLimit]
      split
      · exact Or.inr ⟨⟨1, now⟩, rfl⟩
      · split
        · exact Or.inr ⟨⟨1, now⟩, rfl⟩
        · split
          · split
            · exact Or.inr ⟨_, rfl⟩
            · exact Or.inl rfl
          · split
            · exact Or.inr ⟨_, rfl⟩
            · exact Or.inl rfl
    rcases hcases with hc | ⟨d, hc⟩
    · rw [hc]
    · rw [hc]
      exact hother d
  · intro s c1 c2 v now
    rfl

/-- Witness for the amended C3 at concrete keys, storage and gate call. -/
theorem per_channel_keying_amended_witness :
    getStorageKey "sid" "general" ≠ getStorageKey "sid" "support" ∧
    (checkRateLimit ⟨[("rate_limit_sid:general", StorageVal.entry 1 0)], 10⟩
        "sid" "general" 1000 DEFAULT_OPTIONS).storage.getItem "rate_limit_sid:support" =
      Storage.getItem ⟨[("rate_limit_sid:general", StorageVal.entry 1 0)], 10⟩
        "rate_limit_sid:support" ∧
    submitViaStorage ⟨[], 10⟩ "general" true 1000 =
      submitViaStorage ⟨[], 10⟩ "support" true 1000 := by
  obtain ⟨h1, h2, h3⟩ := per_channel_keying_amended
  exact ⟨h1 "sid" "general" "support" (by decide),
    h2 _ "sid" "general" "rate_limit_sid:support" 1000 DEFAULT_OPTIONS (by decide) (by decide),
    h3 _ "general" "support" true 1000⟩

/-- C8: a corrupt stored record reads as absent; an absent record leaves
the limiter failing open (the request is allowed and treated as the first
of a fresh window); and on a write failure the stale rate-limit entries
older than the 5 minute horizon are evicted, the write is retried once
against the evicted store, and a still-failing retry leaves the evicted
store without the record instead of crashing. -/
theorem storage_failure_degrades :
    (∀ (s : Storage) (key : String), s.getItem key = some StorageVal.corrupt →
      getStoredData s key = none) ∧
    (∀ (s : Storage) (sid ch : String) (now : Int) (opts : RateLimitOptions),
      getStoredData s (getStorageKey sid ch) = none →
      (checkRateLimit s sid ch now opts).result.allowed = true ∧
      (checkRateLimit s sid ch now opts).result.remaining = (opts.maxRequests : Int) - 1) ∧
    (∀ (s : Storage) (key : String) (data : StoredRateData) (now : Int),
      s.writeOk key = false →
      (∀ p ∈ (evictStale s now).entries, p ∈ s.entries ∧ isStaleRateKey now p = false) ∧
      ((evictStale s now).writeOk key = true →
        (setStoredData s key data now).getItem key =
          some (StorageVal.entry data.count data.timestamp)) ∧
      ((evictStale s now).writeOk key = false →
        setStoredData s key data now = evictStale s now)) := by
  refine ⟨?_, ?_, ?_⟩
  · intro s key h
    simp [getStoredData, h]
  · intro s sid ch now opts hget
    simp [checkRateLimit, hget]
  · intro s key data now hw
    refine ⟨?_, ?_, ?_⟩
    · intro p hp
      have := List.mem_filter.1 hp
      exact ⟨this.1, by simpa using this.2⟩
    · intro hw2
      simp only [setStoredData, hw, if_false, Bool.false_eq_true, hw2, if_true]
      exact getItem_insert_self _ key _
    · intro hw2
      simp [setStoredData, hw, hw2]

/-! ### Feed query helper lemmas -/

theorem sorted_sortNewestFirst (l : List Msg) :
    List.Sorted byNewest (sortNewestFirst l) :=
  List.sorted_insertionSort byNewest l

theorem sorted_sortOldestFirst (l : List Msg) :
    List.Sorted byOldest (sortOldestFirst l) :=
  List.sorted_insertionSort byOldest l

theorem sorted_historyQuery (store : List Msg) (ch : String) :
    List.Sorted byNewest (historyQuery store ch) :=
  List.Pairwise.sublist (List.take_sublist _ _) (sorted_sortNewestFirst _)

theorem sorted_loadMoreQuery (store : List Msg) (ch : String) (cursor : Msg) :
    List.Sorted byNewest (loadMoreQuery store ch cursor) :=
  List.Pairwise.sublist (List.take_sublist _ _) (sorted_sortNewestFirst _)

theorem head_max_of_sorted (d : Msg) (rest : List Msg)
    (h : List.Sorted byNewest (d :: rest)) :
    ∀ m ∈ d :: rest, m.created_at ≤ d.created_at := by
  intro m hm
  rcases List.mem_cons.1 hm with rfl | hm2
  · exact le_refl _
  · exact (List.pairwise_cons.1 h).1 m hm2

theorem getLast_min_of_sorted :
    ∀ (l : List Msg), List.Sorted byNewest l → ∀ hne : l ≠ [],
      ∀ m ∈ l, (l.getLast hne).created_at ≤ m.created_at := by
  intro l
  induction l with
  | nil => intro _ hne; exact absurd rfl hne
  | cons a t ih =>
      intro h hne m hm
      cases t with
      | nil =>
          rcases List.mem_cons.1 hm with rfl | hm2
          · exact le_refl _
          · exact absurd hm2 (List.not_mem_nil m)
      | cons b t2 =>
          rw [List.getLast_cons (List.cons_ne_nil b t2)]
          rcases List.mem_cons.1 hm with rfl | hm2
          · exact (List.pairwise_cons.1 h).1 _ (List.getLast_mem (List.cons_ne_nil b t2))
          · exact ih (List.pairwise_cons.1 h).2 (List.cons_ne_nil b t2) m hm2

theorem mem_liveQuery (store : List Msg) (ch : String) (b : Int) (m : Msg) :
    m ∈ liveQuery store ch b ↔ m ∈ store ∧ m.channel = ch ∧ b < m.created_at := by
  unfold liveQuery sortOldestFirst
  rw [(List.perm_insertionSort byOldest _).mem_iff, List.mem_filter]
  simp [and_assoc]

theorem mem_loadMoreQuery (store : List Msg) (ch : String) (cursor : Msg) (m : Msg)
    (hm : m ∈ loadMoreQuery store ch cursor) :
    m ∈ store ∧ m.channel = ch ∧ m.created_at < cursor.created_at := by
  unfold loadMoreQuery sortNewestFirst at hm
  have h1 := List.mem_of_mem_take hm
  rw [(List.perm_insertionSort byNewest _).mem_iff, List.mem_filter] at h1
  have h2 : m.channel = ch ∧ m.created_at < cursor.created_at := by simpa using h1.2
  exact ⟨h1.1, h2.1, h2.2⟩

theorem length_loadMoreQuery (store : List Msg) (ch : String) (cursor : Msg) :
    (loadMoreQuery store ch cursor).length ≤ 25 := by
  unfold loadMoreQuery
  rw [List.length_take]
  exact min_le_left _ _

/-- C4: when a live boundary is fixed, it is the creation timestamp of the
newest message of the history used (server-verified, or cache when the
server read failed), or now minus the 1000 ms margin when the history is
empty; and the live query matches exactly the channel's messages strictly
after the boundary, ordered ascending. -/
theorem live_boundary_correct :
    (∀ (serverStore cacheDocs : List Msg) (channel : String) (now b : Int),
      computeLiveBoundary cacheDocs (some (historyQuery serverStore channel)) now = some b →
      (historyQuery serverStore channel = [] → b = now - 1000) ∧
      (historyQuery serverStore channel ≠ [] →
        (∃ x ∈ historyQuery serverStore channel, x.created_at = b) ∧
        ∀ m ∈ historyQuery serverStore channel, m.created_at ≤ b)) ∧
    (∀ (cacheStore : List Msg) (channel : String) (now b : Int),
      computeLiveBoundary (historyQuery cacheStore channel) none now = some b →
      (∃ x ∈ historyQuery cacheStore channel, x.created_at = b) ∧
      ∀ m ∈ historyQuery cacheStore channel, m.created_at ≤ b) ∧
    (∀ (cacheDocs : List Msg) (now : Int),
      computeLiveBoundary cacheDocs none now = none → cacheDocs = []) ∧
    (∀ (store : List Msg) (channel : String) (b : Int) (m : Msg),
      m ∈ liveQuery store channel b ↔
        m ∈ store ∧ m.channel = channel ∧ b < m.created_at) ∧
    (∀ (store : List Msg) (channel : String) (b : Int),
      List.Sorted byOldest (liveQuery store channel b)) := by
  refine ⟨?_, ?_, ?_, fun store ch b m => mem_liveQuery store ch b m,
    fun store ch b => sorted_sortOldestFirst _⟩
  · intro serverStore cacheDocs channel now b hb
    cases hq : historyQuery serverStore channel with
    | nil =>
        rw [hq] at hb
        simp only [computeLiveBoundary, Option.some_inj] at hb
        exact ⟨fun _ => hb.symm, fun hne => absurd rfl hne⟩
    | cons d rest =>
        rw [hq] at hb
        simp only [computeLiveBoundary, Option.some_inj] at hb
        refine ⟨fun he => absurd he (List.cons_ne_nil d rest), fun _ => ?_⟩
        have hs := sorted_historyQuery serverStore channel
        rw [hq] at hs
        exact ⟨⟨d, List.mem_cons_self d rest, hb⟩,
          fun m hm => hb ▸ head_max_of_sorted d rest hs m hm⟩
  · intro cacheStore channel now b hb
    cases hq : historyQuery cacheStore channel with
    | nil => rw [hq] at hb; exact absurd hb (by simp [computeLiveBoundary])
    | cons d rest =>
        rw [hq] at hb
        simp only [computeLiveBoundary, Option.some_inj] at hb
        have hs := sorted_historyQuery cacheStore channel
        rw [hq] at hs
        exact ⟨⟨d, List.mem_cons_self d rest, hb⟩,
          fun m hm => hb ▸ head_max_of_sorted d rest hs m hm⟩
  · intro cacheDocs now hb
    cases cacheDocs with
    | nil => rfl
    | cons d rest => exact absurd hb (by simp [computeLiveBoundary])

/-- Witness for C4 on a two-message store: the boundary is the newest
timestamp, it dominates the history, and the live query membership holds
at a concrete message. -/
theorem live_boundary_correct_witness :
    (mkMsg "b" "general" 20).created_at ≤ 20 ∧
    (mkMsg "a" "general" 15 ∈ liveQuery [mkMsg "a" "general" 15] "general" 10 ↔
      mkMsg "a" "general" 15 ∈ [mkMsg "a" "general" 15] ∧
        (mkMsg "a" "general" 15).channel = "general" ∧
        (10 : Int) < (mkMsg "a" "general" 15).created_at) := by
  have h := live_boundary_correct
  refine ⟨?_, h.2.2.2.1 [mkMsg "a" "general" 15] "general" 10 (mkMsg "a" "general" 15)⟩
  exact ((h.1 [mkMsg "a" "general" 10, mkMsg "b" "general" 20] [] "general" 1500 20
    (by decide)).2 (by decide)).2 (mkMsg "b" "general" 20) (by decide)

/-! ### Deduplication helper lemmas -/

theorem any_id_false_of_not_mem (prev : List Msg) (m : Msg)
    (h : m.id ∉ prev.map Msg.id) :
    (prev.any (fun p => p.id == m.id)) = false := by
  rw [← Bool.not_eq_true]
  intro hc
  rcases List.any_eq_true.1 hc with ⟨q, hq, he⟩
  exact h (List.mem_map.2 ⟨q, hq, by simpa using he⟩)

theorem not_mem_of_any_id_false (prev : List Msg) (m : Msg)
    (h : (prev.any (fun p => p.id == m.id)) = false) :
    m.id ∉ prev.map Msg.id := by
  intro hc
  rcases List.mem_map.1 hc with ⟨q, hq, hqe⟩
  have : (prev.any (fun p => p.id == m.id)) = true :=
    List.any_eq_true.2 ⟨q, hq, by simp [hqe]⟩
  simp [this] at h

theorem nodup_dedupAppend (prev batch : List Msg)
    (hp : (prev.map Msg.id).Nodup) (hb : (batch.map Msg.id).Nodup) :
    ((dedupAppend prev batch).map Msg.id).Nodup := by
  unfold dedupAppend
  rw [List.map_append, List.nodup_append]
  refine ⟨hp, List.Nodup.sublist (List.Sublist.map Msg.id (List.filter_sublist _)) hb, ?_⟩
  intro i hi1 hi2
  rcases List.mem_map.1 hi2 with ⟨m, hm, rfl⟩
  have hmf := List.mem_filter.1 hm
  have h2 : (prev.any (fun p => p.id == m.id)) = false := by simpa using hmf.2
  exact not_mem_of_any_id_false prev m h2 hi1

theorem mem_ids_dedupAppend (prev batch : List Msg) (i : String)
    (hi : i ∈ prev.map Msg.id ∨ i ∈ batch.map Msg.id) :
    i ∈ (dedupAppend prev batch).map Msg.id := by
  unfold dedupAppend
  rw [List.map_append, List.mem_append]
  rcases hi with h | h
  · exact Or.inl h
  · by_cases hp : i ∈ prev.map Msg.id
    · exact Or.inl hp
    · right
      rcases List.mem_map.1 h with ⟨m, hm, rfl⟩
      refine List.mem_map.2 ⟨m, List.mem_filter.2 ⟨hm, ?_⟩, rfl⟩
      simp [any_id_false_of_not_mem prev m hp]

theorem nodup_dedupPrepend (prev batch : List Msg)
    (hp : (prev.map Msg.id).Nodup) (hb : (batch.map Msg.id).Nodup) :
    ((dedupPrepend batch prev).map Msg.id).Nodup := by
  unfold dedupPrepend
  rw [List.map_append, List.nodup_append]
  refine ⟨List.Nodup.sublist (List.Sublist.map Msg.id (List.filter_sublist _)) hb, hp, ?_⟩
  intro i hi1 hi2
  rcases List.mem_map.1 hi1 with ⟨m, hm, rfl⟩
  have hmf := List.mem_filter.1 hm
  have h2 : (prev.any (fun p => p.id == m.id)) = false := by simpa using hmf.2
  exact not_mem_of_any_id_false prev m h2 hi2

theorem mem_ids_dedupPrepend (prev batch : List Msg) (i : String)
    (hi : i ∈ prev.map Msg.id ∨ i ∈ batch.map Msg.id) :
    i ∈ (dedupPrepend batch prev).map Msg.id := by
  unfold dedupPrepend
  rw [List.map_append, List.mem_append]
  rcases hi with h | h
  · exact Or.inr h
  · by_cases hp : i ∈ prev.map Msg.id
    · exact Or.inr hp
    · left
      rcases List.mem_map.1 h with ⟨m, hm, rfl⟩
      refine List.mem_map.2 ⟨m, List.mem_filter.2 ⟨hm, ?_⟩, rfl⟩
      simp [any_id_false_of_not_mem prev m hp]

/-- C5: appending a live batch or prepending a load-more page, both
deduplicated by id, keeps the id list duplicate-free, makes every id of
either source appear exactly once, and preserves ordering by creation
time when the incoming batch sits on the proper side. -/
theorem feed_window_dedup :
    (∀ prev batch : List Msg, (prev.map Msg.id).Nodup → (batch.map Msg.id).Nodup →
      ((dedupAppend prev batch).map Msg.id).Nodup ∧
      ∀ i, (i ∈ prev.map Msg.id ∨ i ∈ batch.map Msg.id) →
        ((dedupAppend prev batch).map Msg.id).count i = 1) ∧
    (∀ prev batch : List Msg, (prev.map Msg.id).Nodup → (batch.map Msg.id).Nodup →
      ((dedupPrepend batch prev).map Msg.id).Nodup ∧
      ∀ i, (i ∈ prev.map Msg.id ∨ i ∈ batch.map Msg.id) →
        ((dedupPrepend batch prev).map Msg.id).count i = 1) ∧
    (∀ prev batch : List Msg, List.Sorted byOldest prev → List.Sorted byOldest batch →
      (∀ p ∈ prev, ∀ q ∈ batch, p.created_at ≤ q.created_at) →
      List.Sorted byOldest (dedupAppend prev batch)) ∧
    (∀ prev batch : List Msg, List.Sorted byOldest prev → List.Sorted byOldest batch →
      (∀ q ∈ batch, ∀ p ∈ prev, q.created_at ≤ p.created_at) →
      List.Sorted byOldest (dedupPrepend batch prev)) := by
  refine ⟨?_, ?_, ?_, ?_⟩
  · intro prev batch hp hb
    refine ⟨nodup_dedupAppend prev batch hp hb, fun i hi => ?_⟩
    exact List.count_eq_one_of_mem (nodup_dedupAppend prev batch hp hb)
      (mem_ids_dedupAppend prev batch i hi)
  · intro prev batch hp hb
    refine ⟨nodup_dedupPrepend prev batch hp hb, fun i hi => ?_⟩
    exact List.count_eq_one_of_mem (nodup_dedupPrepend prev batch hp hb)
      (mem_ids_dedupPrepend prev batch i hi)
  · intro prev batch h1 h2 h12
    unfold dedupAppend
    rw [List.Sorted, List.pairwise_append]
    exact ⟨h1, List.Pairwise.sublist (List.filter_sublist _) h2,
      fun p hp q hq => h12 p hp q (List.mem_of_mem_filter hq)⟩
  · intro prev batch h1 h2 h21
    unfold dedupPrepend
    rw [List.Sorted, List.pairwise_append]
    exact ⟨List.Pairwise.sublist (List.filter_sublist _) h2, h1,
      fun q hq p hp => h21 q (List.mem_of_mem_filter hq) p hp⟩

/-- Witness for C5: a message delivered in the history and again in the
live batch appears exactly once, and the merged feed stays sorted. -/
theorem feed_window_dedup_witness :
    ((dedupAppend [mkMsg "a" "general" 1]
        [mkMsg "a" "general" 1, mkMsg "b" "general" 2]).map Msg.id).count "a" = 1 ∧
    ((dedupAppend [mkMsg "a" "general" 1]
        [mkMsg "a" "general" 1, mkMsg "b" "general" 2]).map Msg.id).count "b" = 1 ∧
    List.Sorted byOldest (dedupAppend [mkMsg "a" "general" 1]
      [mkMsg "a" "general" 1, mkMsg "b" "general" 2]) := by
  have h := feed_window_dedup
  refine ⟨(h.1 [mkMsg "a" "general" 1] [mkMsg "a" "general" 1, mkMsg "b" "general" 2]
      (by decide) (by decide)).2 "a" (Or.inl (by decide)),
    (h.1 [mkMsg "a" "general" 1] [mkMsg "a" "general" 1, mkMsg "b" "general" 2]
      (by decide) (by decide)).2 "b" (Or.inr (by decide)),
    h.2.2.1 [mkMsg "a" "general" 1] [mkMsg "a" "general" 1, mkMsg "b" "general" 2]
      ?_ ?_ ?_⟩
  · simp [List.Sorted]
  · simp [List.Sorted, byOldest, mkMsg]
  · intro p hp q hq
    simp [mkMsg] at hp
    simp [mkMsg] at hq
    rcases hq with hq | hq <;> simp [hp, hq, mkMsg]

/-- C6: with a cursor present, handleLoadMore issues a fetch whose page is
taken from the cache tier, or the server when the cache page is empty;
every page document belongs to the channel and is strictly older than the
cursor; the page holds at most 25 documents; the page is reversed and
prepended deduplicated by id; more-available is true exactly for a full
page of 25; an empty page leaves messages and cursor unchanged with
more-available false; and a nonempty page advances the cursor to the
page's last, oldest, document. -/
theorem load_more_page_correct (cacheStore serverStore : List Msg) (channel : String)
    (st : FeedState) (cursor : Msg) (page : List Msg)
    (hc : st.oldestDoc = some cursor)
    (hpage : page = if (loadMoreQuery cacheStore channel cursor).isEmpty
      then loadMoreQuery serverStore channel cursor
      else loadMoreQuery cacheStore channel cursor) :
    (handleLoadMore cacheStore serverStore channel st).2 = true ∧
    (∀ m ∈ page, (m ∈ cacheStore ∨ m ∈ serverStore) ∧ m.channel = channel ∧
      m.created_at < cursor.created_at) ∧
    page.length ≤ 25 ∧
    (handleLoadMore cacheStore serverStore channel st).1.messages =
      dedupPrepend page.reverse st.messages ∧
    ((handleLoadMore cacheStore serverStore channel st).1.hasMore = true ↔
      page.length = 25) ∧
    (page = [] → (handleLoadMore cacheStore serverStore channel st).1 =
      ⟨st.messages, st.oldestDoc, false⟩) ∧
    ∀ hne : page ≠ [],
      (handleLoadMore cacheStore serverStore channel st).1.oldestDoc =
        some (page.getLast hne) ∧
      ∀ m ∈ page, (page.getLast hne).created_at ≤ m.created_at := by
  have hsorted : List.Sorted byNewest page := by
    rw [hpage]; split
    · exact sorted_loadMoreQuery serverStore channel cursor
    · exact sorted_loadMoreQuery cacheStore channel cursor
  have hmem : ∀ m ∈ page, (m ∈ cacheStore ∨ m ∈ serverStore) ∧ m.channel = channel ∧
      m.created_at < cursor.created_at := by
    intro m hm
    rw [hpage] at hm
    by_cases he : (loadMoreQuery cacheStore channel cursor).isEmpty
    · rw [if_pos he] at hm
      have h2 := mem_loadMoreQuery serverStore channel cursor m hm
      exact ⟨Or.inr h2.1, h2.2⟩
    · rw [if_neg he] at hm
      have h2 := mem_loadMoreQuery cacheStore channel cursor m hm
      exact ⟨Or.inl h2.1, h2.2⟩
  have hlen : page.length ≤ 25 := by
    rw [hpage]; split
    · exact length_loadMoreQuery serverStore channel cursor
    · exact length_loadMoreQuery cacheStore channel cursor
  have hrun : handleLoadMore cacheStore serverStore channel st =
      match page.getLast? with
      | some lastDoc =>
          (⟨dedupPrepend page.reverse st.messages, some lastDoc, page.length == 25⟩, true)
      | none => (⟨dedupPrepend page.reverse st.messages, st.oldestDoc, false⟩, true) := by
    simp only [handleLoadMore, hc]
    rw [← hpage]
  refine ⟨?_, hmem, hlen, ?_, ?_, ?_, ?_⟩
  · rw [hrun]; cases page.getLast? <;> rfl
  · rw [hrun]; cases page.getLast? <;> rfl
  · rw [hrun]
    cases hlast : page.getLast? with
    | none =>
        have hpe : page = [] := List.getLast?_eq_none_iff.1 hlast
        subst hpe
        simp
    | some lastDoc => simp
  · intro hpe
    subst hpe
    rw [hrun]
    rfl
  · intro hne
    have hlast := List.getLast?_eq_getLast page hne
    rw [hrun, hlast]
    exact ⟨rfl, getLast_min_of_sorted page hsorted hne⟩

/-- Witness for C6 on a concrete one-message cache page. -/
theorem load_more_page_correct_witness :
    (handleLoadMore [mkMsg "old" "general" 5] [] "general"
      ⟨[mkMsg "cur" "general" 10], some (mkMsg "cur" "general" 10), true⟩).2 = true ∧
    (handleLoadMore [mkMsg "old" "general" 5] [] "general"
      ⟨[mkMsg "cur" "general" 10], some (mkMsg "cur" "general" 10), true⟩).1.messages =
      dedupPrepend (loadMoreQuery [mkMsg "old" "general" 5] "general"
        (mkMsg "cur" "general" 10)).reverse [mkMsg "cur" "general" 10] ∧
    ((handleLoadMore [mkMsg "old" "general" 5] [] "general"
      ⟨[mkMsg "cur" "general" 10], some (mkMsg "cur" "general" 10), true⟩).1.hasMore = true ↔
      (loadMoreQuery [mkMsg "old" "general" 5] "general" (mkMsg "cur" "general" 10)).length
        = 25) := by
  have h := load_more_page_correct [mkMsg "old" "general" 5] [] "general"
    ⟨[mkMsg "cur" "general" 10], some (mkMsg "cur" "general" 10), true⟩
    (mkMsg "cur" "general" 10)
    (loadMoreQuery [mkMsg "old" "general" 5] "general" (mkMsg "cur" "general" 10))
    rfl (by decide)
  exact ⟨h.1, h.2.2.2.1, h.2.2.2.2.1⟩

/-- Witness for C8: a corrupt record reads as none and is allowed; a full
store with one stale entry fails the first write, evicts it, and the
retried write lands. -/
theorem storage_failure_degrades_witness :
    getStoredData ⟨[("rate_limit_a:b", StorageVal.corrupt)], 1⟩ "rate_limit_a:b" = none ∧
    (checkRateLimit ⟨[], 1⟩ "a" "b" 0 DEFAULT_OPTIONS).result.allowed = true ∧
    (setStoredData ⟨[("rate_limit_a:b", StorageVal.entry 1 1)], 1⟩ "rate_limit_x:y"
        ⟨1, 400000⟩ 400000).getItem "rate_limit_x:y" =
      some (StorageVal.entry 1 400000) := by
  obtain ⟨h1, h2, h3⟩ := storage_failure_degrades
  refine ⟨h1 _ "rate_limit_a:b" (by decide), (h2 ⟨[], 1⟩ "a" "b" 0 DEFAULT_OPTIONS (by decide)).1, ?_⟩
  exact (h3 ⟨[("rate_limit_a:b", StorageVal.entry 1 1)], 1⟩ "rate_limit_x:y"
    ⟨1, 400000⟩ 400000 (by decide)).2.1 (by decide)

end BW
